import Mathlib

/-!
Shallow embedding of the burrow resilience layer (a RabbitMQ client wrapper):
the connection state machine with exponential-backoff reconnection
(src/connection.ts), the reconnect-subscriber set and its notification loop,
the consumer/publisher recovery protocol (src/consumer.ts, src/publisher.ts),
and the bridge forwarding failure policy (src/bridge.ts).

Machine integers are modelled as Nat/Int; broker calls are modelled by
explicit outcome parameters (Except/Option); callback-based code is modelled
by explicit state passing.  Wall-clock times are Int milliseconds.
-/

namespace Burrow

/-! ## Connection state machine (src/connection.ts) -/

/-- The ConnectionState union type of src/types.ts. -/
inductive ConnState where
  | disconnected
  | connecting
  | connected
  | reconnecting
deriving DecidableEq, Repr

/-- ReconnectConfig from src/types.ts; maxRetries is -1 for infinite. -/
structure ReconnectConfig where
  initialDelayMs : Nat
  maxDelayMs : Nat
  multiplier : Nat
  maxRetries : Int
deriving DecidableEq, Repr

/-- DEFAULT_RECONNECT of src/connection.ts. -/
def DEFAULT_RECONNECT : ReconnectConfig :=
  { initialDelayMs := 1000, maxDelayMs := 30000, multiplier := 2, maxRetries := -1 }

/-- Result of one invocation of connectWithRetry. -/
inductive RetryResult where
  | success (attempts : Nat)
  | fatal (attempts : Nat) (msg : String)
  | pending (attempts : Nat)
deriving DecidableEq, Repr

/-- Observable trace of one connectWithRetry invocation: the backoff delays
actually slept (in order), the ConnectionState values assigned (in order),
and the final result. -/
structure RetryTrace where
  delays : List Nat
  states : List ConnState
  result : RetryResult
deriving DecidableEq, Repr

/-- The body of connectWithRetry (src/connection.ts lines 148-231), driven by
the list of attempt outcomes supplied by the broker: each list element is the
outcome of one amqp.connect call (`Except.error m` = the attempt threw with
message m).  `delay` and `attempt` are the local mutable variables of the
loop; an exhausted outcome list models a still-running loop (`pending`). -/
def connectLoop (cfg : ReconnectConfig) (delay : Nat) (attempt : Nat) :
    List (Except String Unit) → RetryTrace
  | [] => { delays := [], states := [], result := .pending attempt }
  | o :: rest =>
    let a := attempt + 1
    match o with
    | .ok _ =>
      { delays := [], states := [.connecting, .connected], result := .success a }
    | .error m =>
      if cfg.maxRetries ≠ -1 ∧ (a : Int) ≥ cfg.maxRetries then
        { delays := [], states := [.connecting],
          result := .fatal a ("Failed to connect after " ++ toString a ++ " attempts: " ++ m) }
      else
        let t := connectLoop cfg (min (delay * cfg.multiplier) cfg.maxDelayMs) a rest
        { delays := delay :: t.delays, states := .connecting :: t.states, result := t.result }

/-- One invocation of connectWithRetry: backoff state is initialised fresh
(`let delay = reconnectConfig.initialDelayMs; let attempt = 0`). -/
def connectWithRetry (cfg : ReconnectConfig) (outcomes : List (Except String Unit)) : RetryTrace :=
  connectLoop cfg cfg.initialDelayMs 0 outcomes

/-! ### Backoff lemmas -/

theorem connectLoop_delays_head (cfg : ReconnectConfig) :
    ∀ (outs : List (Except String Unit)) (delay attempt : Nat),
      (connectLoop cfg delay attempt outs).delays = [] ∨
      (connectLoop cfg delay attempt outs).delays.head? = some delay := by
  intro outs
  induction outs with
  | nil => intro delay attempt; left; rfl
  | cons o rest _ =>
    intro delay attempt
    cases o with
    | ok u => left; rfl
    | error m =>
      simp only [connectLoop]
      split_ifs with h
      · left; rfl
      · right; rfl

theorem connectLoop_delays_le (cfg : ReconnectConfig) :
    ∀ (outs : List (Except String Unit)) (delay attempt : Nat),
      delay ≤ cfg.maxDelayMs →
      ∀ d ∈ (connectLoop cfg delay attempt outs).delays, d ≤ cfg.maxDelayMs := by
  intro outs
  induction outs with
  | nil => intro delay attempt _ d hd; simp [connectLoop] at hd
  | cons o rest ih =>
    intro delay attempt hle d hd
    cases o with
    | ok u => simp [connectLoop] at hd
    | error m =>
      simp only [connectLoop] at hd
      split_ifs at hd with h
      · simp at hd
      · simp only [List.mem_cons] at hd
        rcases hd with hd | hd
        · exact hd ▸ hle
        · exact ih _ _ (Nat.min_le_right _ _) d hd

theorem connectLoop_delays_chain (cfg : ReconnectConfig) (hm : 1 ≤ cfg.multiplier) :
    ∀ (outs : List (Except String Unit)) (delay attempt : Nat),
      delay ≤ cfg.maxDelayMs →
      List.Chain' (· ≤ ·) (connectLoop cfg delay attempt outs).delays := by
  intro outs
  induction outs with
  | nil => intro delay attempt _; simp [connectLoop]
  | cons o rest ih =>
    intro delay attempt hle
    cases o with
    | ok u => simp [connectLoop]
    | error m =>
      simp only [connectLoop]
      split_ifs with h
      · simp
      · refine List.chain'_cons'.mpr ⟨?_, ?_⟩
        · intro b hb
          rcases connectLoop_delays_head cfg rest (min (delay * cfg.multiplier) cfg.maxDelayMs)
              (attempt + 1) with hnil | hhead
          · rw [hnil] at hb; simp at hb
          · rw [hhead] at hb
            simp only [Option.mem_def, Option.some.injEq] at hb
            subst hb
            exact le_min (Nat.le_mul_of_pos_right delay (Nat.lt_of_lt_of_le Nat.zero_lt_one hm)) hle
        · exact ih _ _ (Nat.min_le_right _ _)

/-- Claim C4 (amended): for configurations with multiplier at least 1 and
initial delay at most the maximum delay (the defaults satisfy both), the
delays slept within one connectWithRetry invocation are monotonically
non-decreasing and never exceed maxDelayMs, and every fresh invocation starts
at the configured initial delay. -/
theorem backoff_monotone_bounded (cfg : ReconnectConfig)
    (outcomes : List (Except String Unit))
    (hm : 1 ≤ cfg.multiplier) (hi : cfg.initialDelayMs ≤ cfg.maxDelayMs) :
    List.Chain' (· ≤ ·) (connectWithRetry cfg outcomes).delays ∧
    (∀ d ∈ (connectWithRetry cfg outcomes).delays, d ≤ cfg.maxDelayMs) ∧
    ((connectWithRetry cfg outcomes).delays = [] ∨
      (connectWithRetry cfg outcomes).delays.head? = some cfg.initialDelayMs) := by
  refine ⟨?_, ?_, ?_⟩
  · exact connectLoop_delays_chain cfg hm outcomes cfg.initialDelayMs 0 hi
  · exact connectLoop_delays_le cfg outcomes cfg.initialDelayMs 0 hi
  · exact connectLoop_delays_head cfg outcomes cfg.initialDelayMs 0

/-- Witness for C4's amended theorem at the default configuration and a run of
three failures followed by a success: the slept delays are 1000, 2000, 4000. -/
theorem backoff_monotone_bounded_witness :
    (1 ≤ DEFAULT_RECONNECT.multiplier ∧
      DEFAULT_RECONNECT.initialDelayMs ≤ DEFAULT_RECONNECT.maxDelayMs) ∧
    (List.Chain' (· ≤ ·)
        (connectWithRetry DEFAULT_RECONNECT
          [Except.error "refused", Except.error "refused", Except.error "refused",
            Except.ok ()]).delays ∧
      (∀ d ∈ (connectWithRetry DEFAULT_RECONNECT
          [Except.error "refused", Except.error "refused", Except.error "refused",
            Except.ok ()]).delays, d ≤ DEFAULT_RECONNECT.maxDelayMs) ∧
      ((connectWithRetry DEFAULT_RECONNECT
          [Except.error "refused", Except.error "refused", Except.error "refused",
            Except.ok ()]).delays = [] ∨
        (connectWithRetry DEFAULT_RECONNECT
          [Except.error "refused", Except.error "refused", Except.error "refused",
            Except.ok ()]).delays.head? = some DEFAULT_RECONNECT.initialDelayMs)) :=
  ⟨by decide,
    backoff_monotone_bounded DEFAULT_RECONNECT
      [Except.error "refused", Except.error "refused", Except.error "refused", Except.ok ()]
      (by decide) (by decide)⟩

/-- Counterexample to claim C4 as stated: with initialDelayMs = 40000 and
maxDelayMs = 30000 (the code never validates or clamps the configured initial
delay), two failed attempts sleep 40000 then 30000 ms: the delay sequence is
decreasing and its first element exceeds maxDelayMs. -/
theorem backoff_monotone_counterexample :
    (connectWithRetry
        { initialDelayMs := 40000, maxDelayMs := 30000, multiplier := 2, maxRetries := -1 }
        [Except.error "refused", Except.error "refused", Except.ok ()]).delays =
      [40000, 30000] ∧
    ¬ List.Chain' (· ≤ ·)
        (connectWithRetry
          { initialDelayMs := 40000, maxDelayMs := 30000, multiplier := 2, maxRetries := -1 }
          [Except.error "refused", Except.error "refused", Except.ok ()]).delays ∧
    40000 ∈ (connectWithRetry
        { initialDelayMs := 40000, maxDelayMs := 30000, multiplier := 2, maxRetries := -1 }
        [Except.error "refused", Except.error "refused", Except.ok ()]).delays ∧
    ¬ (40000 ≤ 30000) := by
  have hd : (connectWithRetry
      { initialDelayMs := 40000, maxDelayMs := 30000, multiplier := 2, maxRetries := -1 }
      [Except.error "refused", Except.error "refused", Except.ok ()]).delays =
      [40000, 30000] := by decide
  refine ⟨hd, ?_, ?_, by norm_num⟩
  · rw [hd]
    intro h
    exact absurd (List.chain'_cons.mp h).1 (by norm_num)
  · rw [hd]; simp

/-! ### Finite retry cap (src/connection.ts lines 222-224) -/

theorem connectLoop_allfail (cfg : ReconnectConfig) (n : Nat) (m : String)
    (hcap : cfg.maxRetries = (n : Int)) :
    ∀ (r : Nat), 0 < r → ∀ (delay attempt k : Nat), attempt + r = n → r ≤ k →
      (connectLoop cfg delay attempt (List.replicate k (Except.error m))).result =
        .fatal n ("Failed to connect after " ++ toString n ++ " attempts: " ++ m) ∧
      ConnState.connected ∉
        (connectLoop cfg delay attempt (List.replicate k (Except.error m))).states := by
  intro r
  induction r with
  | zero => intro h; exact absurd h (by omega)
  | succ r ih =>
    intro _ delay attempt k hsum hrk
    obtain ⟨k', rfl⟩ : ∃ k', k = k' + 1 := ⟨k - 1, by omega⟩
    rw [List.replicate_succ]
    by_cases hr : r = 0
    · subst hr
      have ha : attempt + 1 = n := by omega
      have hguard : cfg.maxRetries ≠ -1 ∧ ((attempt + 1 : Nat) : Int) ≥ cfg.maxRetries := by
        constructor
        · rw [hcap]; omega
        · rw [hcap, ha]
      constructor
      · simp only [connectLoop]
        rw [if_pos hguard, ha]
      · simp only [connectLoop]
        rw [if_pos hguard]
        simp
    · have hguard : ¬ (cfg.maxRetries ≠ -1 ∧ ((attempt + 1 : Nat) : Int) ≥ cfg.maxRetries) := by
        rw [hcap]
        intro hc
        have := hc.2
        omega
      have hrec := ih (by omega) (min (delay * cfg.multiplier) cfg.maxDelayMs) (attempt + 1) k'
        (by omega) (by omega)
      constructor
      · simp only [connectLoop]
        rw [if_neg hguard]
        exact hrec.1
      · simp only [connectLoop]
        rw [if_neg hguard]
        simp only [List.mem_cons]
        intro hc
        rcases hc with hc | hc
        · exact ConnState.noConfusion hc
        · exact hrec.2 hc

/-- Claim C5: with a finite retry cap maxRetries = n (n positive) and every
connect attempt failing, connectWithRetry raises the fatal error after exactly
n attempts, the error message cites n attempts, and the state trace never
contains `connected`. -/
theorem retry_cap_fatal (cfg : ReconnectConfig) (n k : Nat) (m : String)
    (hn : 0 < n) (hcap : cfg.maxRetries = (n : Int)) (hk : n ≤ k) :
    (connectWithRetry cfg (List.replicate k (Except.error m))).result =
      .fatal n ("Failed to connect after " ++ toString n ++ " attempts: " ++ m) ∧
    ConnState.connected ∉
      (connectWithRetry cfg (List.replicate k (Except.error m))).states :=
  connectLoop_allfail cfg n m hcap n hn cfg.initialDelayMs 0 k (by omega) hk

/-- Witness for C5: maxRetries = 3 and an unreachable broker (five straight
failures available): fatal after exactly 3 attempts, citing 3 attempts. -/
theorem retry_cap_fatal_witness :
    (0 < 3 ∧
      ReconnectConfig.maxRetries
        { initialDelayMs := 1000, maxDelayMs := 30000, multiplier := 2, maxRetries := 3 } =
        ((3 : Nat) : Int) ∧ 3 ≤ 5) ∧
    ((connectWithRetry
        { initialDelayMs := 1000, maxDelayMs := 30000, multiplier := 2, maxRetries := 3 }
        (List.replicate 5 (Except.error "ECONNREFUSED"))).result =
      .fatal 3 ("Failed to connect after " ++ toString 3 ++ " attempts: " ++ "ECONNREFUSED") ∧
    ConnState.connected ∉
      (connectWithRetry
        { initialDelayMs := 1000, maxDelayMs := 30000, multiplier := 2, maxRetries := 3 }
        (List.replicate 5 (Except.error "ECONNREFUSED"))).states) :=
  ⟨⟨by decide, by decide, by decide⟩,
    retry_cap_fatal
      { initialDelayMs := 1000, maxDelayMs := 30000, multiplier := 2, maxRetries := 3 }
      3 5 "ECONNREFUSED" (by decide) (by decide) (by decide)⟩

/-! ## ConnectionManager event machine (src/connection.ts)

The manager's observable state (the `ConnectionManagerState` record) between
suspension points of the single-threaded cooperative scheduler.  `phase` is
the program counter of the connect-with-retry loop: where the loop is
currently suspended.  Each event is one atomic block of the code:

* `connectCall`    - entering connectWithRetry (initial `connect()`);
* `attemptSucceed` - `await amqp.connect` resolves: the handle is stored,
                     handlers attached, state set to `connected` (lines
                     165-207);
* `attemptFailRetry` - the attempt throws and the cap is not reached: cleanup
                     and `await sleep(delay)` (lines 208-228);
* `attemptFailFatal` - the attempt throws and the cap is reached: the loop
                     throws out (lines 222-224);
* `sleepDone`      - the backoff sleep resolves, loop re-enters its header;
* `connClosed`     - the live connection emits `close`: `recordDisconnect`,
                     then `scheduleReconnect` nulls the handle and
                     synchronously re-enters the loop header (lines 179-188
                     and 130-142);
* `managerClose`   - `close()` (lines 307-323): shutdown flag set, handle
                     closed best-effort and nulled, state `disconnected`. -/

inductive CMPhase where
  | idle
  | awaitingConnect
  | backoffSleep
  | connectedIdle
deriving DecidableEq, Repr

/-- ConnectionManagerState of src/connection.ts (lines 81-86, 120-125):
`connection` is the presence of the physical handle. -/
structure CMState where
  connection : Bool
  state : ConnState
  isShuttingDown : Bool
  phase : CMPhase
deriving DecidableEq, Repr

/-- The state initialiser of createConnection (lines 120-125). -/
def CMState.init : CMState :=
  { connection := false, state := .disconnected, isShuttingDown := false, phase := .idle }

inductive CMEvent where
  | connectCall
  | attemptSucceed
  | attemptFailRetry
  | attemptFailFatal
  | sleepDone
  | connClosed
  | managerClose
deriving DecidableEq, Repr

/-- One atomic step of the manager; events that are not enabled in the current
phase leave the state unchanged. -/
def cmStep (s : CMState) : CMEvent → CMState
  | .connectCall =>
    if s.phase = .idle then
      if s.isShuttingDown then s
      else { s with state := .connecting, phase := .awaitingConnect }
    else s
  | .attemptSucceed =>
    if s.phase = .awaitingConnect then
      { s with connection := true, state := .connected, phase := .connectedIdle }
    else s
  | .attemptFailRetry =>
    if s.phase = .awaitingConnect then { s with phase := .backoffSleep } else s
  | .attemptFailFatal =>
    if s.phase = .awaitingConnect then { s with phase := .idle } else s
  | .sleepDone =>
    if s.phase = .backoffSleep then
      if s.isShuttingDown then { s with phase := .idle }
      else { s with state := .connecting, phase := .awaitingConnect }
    else s
  | .connClosed =>
    if s.connection = true ∧ s.isShuttingDown = false then
      { s with connection := false, state := .connecting, phase := .awaitingConnect }
    else s
  | .managerClose =>
    { s with isShuttingDown := true, connection := false, state := .disconnected,
             phase := if s.phase = .connectedIdle then .idle else s.phase }

/-- isConnected of src/connection.ts line 243:
`state.state === "connected" && state.connection !== null`. -/
def isConnected (s : CMState) : Bool :=
  decide (s.state = .connected) && s.connection

/-- createChannel (lines 255-275): null unless the connection handle is
present; `brokerOk = false` models `connection.createChannel()` throwing
(also answered with null). -/
def createChannel (s : CMState) (brokerOk : Bool) : Option Unit :=
  if s.connection then (if brokerOk then some () else none) else none

/-- createConfirmChannel (lines 281-301): same structure as createChannel. -/
def createConfirmChannel (s : CMState) (brokerOk : Bool) : Option Unit :=
  if s.connection then (if brokerOk then some () else none) else none

/-- Run the manager from construction through a sequence of events. -/
def cmRun (events : List CMEvent) : CMState :=
  events.foldl cmStep CMState.init

/-- The inductive invariant: the handle is present exactly in state
`connected`, and only while the retry loop is parked at `connectedIdle`. -/
def cmInv (s : CMState) : Prop :=
  (s.connection = true ↔ s.state = .connected) ∧
  (s.phase ≠ .connectedIdle → s.connection = false)

theorem cmInv_init : cmInv CMState.init := by
  constructor <;> simp [CMState.init]

theorem cmInv_step (s : CMState) (e : CMEvent) (h : cmInv s) : cmInv (cmStep s e) := by
  obtain ⟨h1, h2⟩ := h
  cases e <;> simp only [cmStep] <;> split_ifs <;> constructor <;> simp_all

theorem cmInv_run (events : List CMEvent) : cmInv (cmRun events) := by
  rw [cmRun]
  induction events using List.reverseRecOn with
  | nil => exact cmInv_init
  | append_singleton es e ih =>
    rw [List.foldl_append, List.foldl_cons, List.foldl_nil]
    exact cmInv_step _ e ih

/-- Claim C3: after any sequence of connect and disconnect events,
isConnected() is true iff the state is `connected`, the physical handle is
present iff the state is `connected`, and createChannel/createConfirmChannel
answer non-null only while isConnected() is true. -/
theorem connection_invariant (events : List CMEvent) :
    (isConnected (cmRun events) = true ↔ (cmRun events).state = .connected) ∧
    ((cmRun events).connection = true ↔ (cmRun events).state = .connected) ∧
    (∀ brokerOk : Bool, createChannel (cmRun events) brokerOk ≠ none →
      isConnected (cmRun events) = true) ∧
    (∀ brokerOk : Bool, createConfirmChannel (cmRun events) brokerOk ≠ none →
      isConnected (cmRun events) = true) := by
  obtain ⟨h1, _⟩ := cmInv_run events
  refine ⟨?_, h1, ?_, ?_⟩
  · rw [isConnected]
    constructor
    · intro h
      simp only [Bool.and_eq_true, decide_eq_true_eq] at h
      exact h.1
    · intro h
      simp only [Bool.and_eq_true, decide_eq_true_eq]
      exact ⟨h, h1.mpr h⟩
  · intro brokerOk hch
    rw [createChannel] at hch
    split_ifs at hch with hconn hb
    · rw [isConnected]
      simp only [Bool.and_eq_true, decide_eq_true_eq]
      exact ⟨h1.mp hconn, hconn⟩
    · exact absurd rfl hch
    · exact absurd rfl hch
  · intro brokerOk hch
    rw [createConfirmChannel] at hch
    split_ifs at hch with hconn hb
    · rw [isConnected]
      simp only [Bool.and_eq_true, decide_eq_true_eq]
      exact ⟨h1.mp hconn, hconn⟩
    · exact absurd rfl hch
    · exact absurd rfl hch

/-- Witness for C3 at a concrete trace: connect, succeed, lose the connection,
reconnect, succeed again, then close. -/
theorem connection_invariant_witness :
    (isConnected (cmRun [.connectCall, .attemptSucceed, .connClosed, .attemptSucceed,
        .managerClose]) = true ↔
      (cmRun [.connectCall, .attemptSucceed, .connClosed, .attemptSucceed,
        .managerClose]).state = .connected) ∧
    ((cmRun [.connectCall, .attemptSucceed, .connClosed, .attemptSucceed,
        .managerClose]).connection = true ↔
      (cmRun [.connectCall, .attemptSucceed, .connClosed, .attemptSucceed,
        .managerClose]).state = .connected) ∧
    (∀ brokerOk : Bool, createChannel (cmRun [.connectCall, .attemptSucceed, .connClosed,
        .attemptSucceed, .managerClose]) brokerOk ≠ none →
      isConnected (cmRun [.connectCall, .attemptSucceed, .connClosed, .attemptSucceed,
        .managerClose]) = true) ∧
    (∀ brokerOk : Bool, createConfirmChannel (cmRun [.connectCall, .attemptSucceed,
        .connClosed, .attemptSucceed, .managerClose]) brokerOk ≠ none →
      isConnected (cmRun [.connectCall, .attemptSucceed, .connClosed, .attemptSucceed,
        .managerClose]) = true) :=
  connection_invariant [.connectCall, .attemptSucceed, .connClosed, .attemptSucceed,
    .managerClose]

/-! ## Reconnect-subscriber set and notification loop

`state.reconnectSubscribers` is a JavaScript `Set` of callbacks
(src/connection.ts line 124); `onReconnect` adds (line 337), the returned
unsubscribe deletes (line 339), and the notification loop
(`for (const subscriber of state.reconnectSubscribers)` at lines 198-205)
iterates the live set.  Following the ECMA-262 Set semantics, the entry list
is modelled as `List (Option Nat)` of callback identities: delete blanks an
entry in place, add appends when the value is not already a member, and the
iterator walks the entry list by index, skipping blanks and seeing entries
appended behind the cursor. -/

abbrev SetEntries := List (Option Nat)

/-- The members of the set, in insertion order. -/
def liveList (es : SetEntries) : List Nat := es.filterMap id

/-- `Set.prototype.add`: appends unless already a member. -/
def setAdd (es : SetEntries) (v : Nat) : SetEntries :=
  if v ∈ liveList es then es else es ++ [some v]

/-- `Set.prototype.delete`: blanks the matching entry in place. -/
def setDelete (es : SetEntries) (v : Nat) : SetEntries :=
  es.map fun e => if e = some v then none else e

/-- A mutation a subscriber callback may perform on the subscriber set while
the notification loop runs: `add v` is `onReconnect` registering callback v,
`remove v` is an unsubscribe of callback v. -/
inductive SetOp where
  | add (v : Nat)
  | remove (v : Nat)
deriving DecidableEq, Repr

def applyOps (es : SetEntries) : List SetOp → SetEntries
  | [] => es
  | .add v :: rest => applyOps (setAdd es v) rest
  | .remove v :: rest => applyOps (setDelete es v) rest

/-- The notification loop of connectWithRetry (src/connection.ts lines
198-205), iterating the live entry list from index `i`: each visited callback
`v` is invoked (recorded in the returned log) and may mutate the set by
`acts v`; a thrown subscriber error is caught, so iteration continues either
way.  `fuel` truncates the walk (the real loop is unbounded; a run that
exhausts its fuel has performed exactly the logged invocations so far). -/
def notifyFrom (acts : Nat → List SetOp) : Nat → Nat → SetEntries → List Nat × SetEntries
  | 0, _, es => ([], es)
  | fuel + 1, i, es =>
    match es[i]? with
    | none => ([], es)
    | some none => notifyFrom acts fuel (i + 1) es
    | some (some v) =>
      let es1 := applyOps es (acts v)
      let r := notifyFrom acts fuel (i + 1) es1
      (v :: r.1, r.2)

/-- One full notification with subscribers that do not mutate the set during
the loop (the situation of claim C7's first half): the real loop then visits
exactly the live entries, so length-many steps of fuel suffice. -/
def notifySubscribers (es : SetEntries) : List Nat :=
  (notifyFrom (fun _ => []) es.length 0 es).1

/-- N successful (re)connections, each running the notification loop once
over a stable subscriber set. -/
def notifyRounds (es : SetEntries) : Nat → List Nat
  | 0 => []
  | n + 1 => notifySubscribers es ++ notifyRounds es n

theorem notifyFrom_stable (es : SetEntries) :
    ∀ (fuel i : Nat), es.length ≤ i + fuel →
      notifyFrom (fun _ => []) fuel i es = (liveList (es.drop i), es) := by
  intro fuel
  induction fuel with
  | zero =>
    intro i hle
    have : es.drop i = [] := List.drop_eq_nil_of_le (by omega)
    rw [notifyFrom, this]
    rfl
  | succ fuel ih =>
    intro i hle
    rw [notifyFrom]
    by_cases hi : i < es.length
    · have hdrop : es.drop i = es[i] :: es.drop (i + 1) := List.drop_eq_getElem_cons hi
      rw [List.getElem?_eq_getElem hi]
      cases hgi : es[i] with
      | none =>
        rw [ih (i + 1) (by omega), hdrop, hgi]
        simp [liveList]
      | some v =>
        have hnop : applyOps es ((fun _ => ([] : List SetOp)) v) = es := rfl
        simp only [hnop, ih (i + 1) (by omega)]
        rw [hdrop, hgi]
        simp [liveList]
    · rw [List.getElem?_eq_none (by omega)]
      have : es.drop i = [] := List.drop_eq_nil_of_le (by omega)
      rw [this]
      rfl

theorem notifySubscribers_eq (es : SetEntries) : notifySubscribers es = liveList es := by
  rw [notifySubscribers, notifyFrom_stable es es.length 0 (by omega)]
  rfl

theorem notifyRounds_eq (es : SetEntries) :
    ∀ n : Nat, notifyRounds es n = (List.replicate n (liveList es)).flatten := by
  intro n
  induction n with
  | zero => rfl
  | succ n ih =>
    rw [notifyRounds, ih, List.replicate_succ, List.flatten_cons, notifySubscribers_eq]

theorem notifyRounds_count (es : SetEntries) (v n : Nat) :
    (notifyRounds es n).count v = n * (liveList es).count v := by
  induction n with
  | zero => simp [notifyRounds]
  | succ n ih =>
    rw [notifyRounds, List.count_append, ih, notifySubscribers_eq]
    ring

theorem mem_liveList_iff (es : SetEntries) (v : Nat) :
    v ∈ liveList es ↔ some v ∈ es := by
  simp [liveList, List.mem_filterMap]

theorem not_mem_liveList_setAdd (es : SetEntries) (u v : Nat) (hne : v ≠ u)
    (h : v ∉ liveList es) : v ∉ liveList (setAdd es u) := by
  rw [setAdd]
  split_ifs with hmem
  · exact h
  · rw [mem_liveList_iff] at h ⊢
    intro hc
    rcases List.mem_append.mp hc with hc | hc
    · exact h hc
    · simp only [List.mem_singleton, Option.some.injEq] at hc
      exact hne hc

theorem not_mem_liveList_setDelete (es : SetEntries) (u v : Nat)
    (h : v ∉ liveList es) : v ∉ liveList (setDelete es u) := by
  rw [mem_liveList_iff] at h ⊢
  rw [setDelete]
  intro hc
  obtain ⟨e, he, hfe⟩ := List.mem_map.mp hc
  by_cases heu : e = some u
  · rw [heu] at hfe; simp at hfe
  · rw [if_neg heu] at hfe
    exact h (hfe ▸ he)

theorem applyOps_not_mem (v : Nat) :
    ∀ (ops : List SetOp) (es : SetEntries), v ∉ liveList es → SetOp.add v ∉ ops →
      v ∉ liveList (applyOps es ops) := by
  intro ops
  induction ops with
  | nil => intro es h _; exact h
  | cons op rest ih =>
    intro es h hops
    cases op with
    | add u =>
      have hne : v ≠ u := by
        intro hvu
        exact hops (hvu ▸ List.mem_cons_self _ _)
      exact ih (setAdd es u) (not_mem_liveList_setAdd es u v hne h)
        (fun hc => hops (List.mem_cons_of_mem _ hc))
    | remove u =>
      exact ih (setDelete es u) (not_mem_liveList_setDelete es u v h)
        (fun hc => hops (List.mem_cons_of_mem _ hc))

/-- A callback that is not in the subscriber set and that no subscriber ever
registers is never invoked by the notification loop, whatever the other
subscribers do to the set while it runs. -/
theorem notifyFrom_not_mem (acts : Nat → List SetOp) (v : Nat)
    (hacts : ∀ u, SetOp.add v ∉ acts u) :
    ∀ (fuel i : Nat) (es : SetEntries), v ∉ liveList es →
      v ∉ (notifyFrom acts fuel i es).1 := by
  intro fuel
  induction fuel with
  | zero => intro i es h; rw [notifyFrom]; simp
  | succ fuel ih =>
    intro i es h
    rw [notifyFrom]
    by_cases hi : i < es.length
    · rw [List.getElem?_eq_getElem hi]
      cases hgi : es[i] with
      | none => exact ih (i + 1) es h
      | some u =>
        have hu : u ∈ liveList es := by
          rw [mem_liveList_iff]
          exact hgi ▸ List.getElem_mem hi
        have hvu : v ≠ u := fun hc => h (hc ▸ hu)
        simp only [List.mem_cons]
        intro hc
        rcases hc with hc | hc
        · exact hvu hc
        · exact ih (i + 1) (applyOps es (acts u))
            (applyOps_not_mem v (acts u) es h (hacts u)) hc
    · rw [List.getElem?_eq_none (by omega)]
      simp

/-- A subscriber callback that removes itself and immediately re-registers
itself during the notification (cf. src/connection.ts lines 336-341: each
component holds its own unsubscribe handle and may call onReconnect again).
Under the live ECMA Set iteration this re-appends the entry behind the
cursor, so the loop visits it again. -/
def selfReaddActs : Nat → List SetOp := fun v => [SetOp.remove v, SetOp.add v]

/-- Counterexample for claim C7: a single still-registered subscriber
(callback 0) that unsubscribes and re-subscribes while the notification loop
runs is invoked three times within the first three iterations of one single
success's notification loop — not "never invoked twice for the same
success". -/
theorem reconnect_subscriber_counterexample :
    (notifyFrom selfReaddActs 3 0 [some 0]).1 = [0, 0, 0] ∧
    0 ∈ liveList (notifyFrom selfReaddActs 3 0 [some 0]).2 ∧
    2 ≤ (notifyFrom selfReaddActs 3 0 [some 0]).1.count 0 := by
  refine ⟨by decide, by decide, by decide⟩

/-- Claim C7 (amended): over N successful (re)connections with a stable
subscriber set, the notification log is N copies of the live set in
registration order, so a subscriber registered once is invoked exactly N
times; but the loop iterates the live set, so a subscriber that is removed
and re-added during one notification is visited again for that same
success. -/
theorem reconnect_subscriber_invocations (es : SetEntries) (N v : Nat) :
    notifyRounds es N = (List.replicate N (liveList es)).flatten ∧
    ((liveList es).count v = 1 → (notifyRounds es N).count v = N) ∧
    2 ≤ (notifyFrom selfReaddActs 3 0 [some 0]).1.count 0 := by
  refine ⟨notifyRounds_eq es N, ?_, by decide⟩
  intro hone
  rw [notifyRounds_count, hone, Nat.mul_one]

/-- Witness for C7's amended theorem: two subscribers (ids 1 and 2, in
registration order) and three reconnects: the log is [1, 2, 1, 2, 1, 2] and
subscriber 1 is invoked exactly 3 times. -/
theorem reconnect_subscriber_invocations_witness :
    (notifyRounds [some 1, some 2] 3 =
        (List.replicate 3 (liveList [some 1, some 2])).flatten ∧
      ((liveList [some 1, some 2]).count 1 = 1 →
        (notifyRounds [some 1, some 2] 3).count 1 = 3) ∧
      2 ≤ (notifyFrom selfReaddActs 3 0 [some 0]).1.count 0) ∧
    (liveList [some 1, some 2]).count 1 = 1 ∧
    notifyRounds [some 1, some 2] 3 = [1, 2, 1, 2, 1, 2] :=
  ⟨reconnect_subscriber_invocations [some 1, some 2] 3 1, by decide, by decide⟩

/-! ## Consumer (src/consumer.ts) -/

/-- ConsumerState of src/consumer.ts lines 23-32 (metrics and the stored
unsubscribe handle are modelled separately). -/
structure ConsumerState where
  channel : Bool
  consumerTag : Option Nat
  isActive : Bool
  wasActive : Bool
deriving DecidableEq, Repr

/-- setup (src/consumer.ts lines 82-120): any stale channel is closed first —
`closeThrows` models `state.channel.close()` throwing, which is caught and
ignored — then a fresh channel is requested from the manager (`newChannel`);
a null answer makes setup throw "Failed to create channel".  The queue
assertion, binding and prefetch calls are delegated to the (assumed-correct)
broker client.  Returns whether setup succeeded together with the state it
leaves behind. -/
def consumerSetup (s : ConsumerState) (closeThrows : Bool) (newChannel : Option Unit) :
    Bool × ConsumerState :=
  let s0 : ConsumerState := { s with channel := false }
  match newChannel with
  | none => (false, s0)
  | some _ => (true, { s0 with channel := true })

/-- startConsuming (src/consumer.ts lines 173-186): registers the per-message
callback with the broker (which issues `tag`) and marks both flags. -/
def startConsuming (s : ConsumerState) (tag : Nat) : ConsumerState :=
  { s with consumerTag := some tag, isActive := true, wasActive := true }

/-- handleReconnect (src/consumer.ts lines 125-137): re-run setup, and if the
consumer was active before the disconnect, resume consuming; a setup failure
is caught and logged. -/
def consumerHandleReconnect (s : ConsumerState) (closeThrows : Bool)
    (newChannel : Option Unit) (tag : Nat) : ConsumerState :=
  let r := consumerSetup s closeThrows newChannel
  if r.1 then
    if r.2.wasActive then startConsuming r.2 tag else r.2
  else r.2

/-- The onReconnect registrations performed by createConsumer at construction
(src/consumer.ts lines 270-276): exactly one subscriber, the callback wired
to handleReconnect, here identified by `cid`. -/
def createConsumerReconnectRegs (cid : Nat) : List SetOp := [SetOp.add cid]

/-- The onReconnect registrations performed by createPublisher at
construction (src/publisher.ts lines 48-179): the function body contains no
onReconnect call at all. -/
def createPublisherReconnectRegs : List SetOp := []

/-- The onReconnect registrations performed by createBridge on the source
manager (src/bridge.ts lines 57-320): none. -/
def createBridgeSourceReconnectRegs : List SetOp := []

/-- The onReconnect registrations performed by createBridge on the target
manager (src/bridge.ts lines 57-320): none. -/
def createBridgeTargetReconnectRegs : List SetOp := []

/-- Claim C1, evaluated against the code: createConsumer registers exactly
one reconnect subscriber and its handleReconnect re-runs setup (discarding
the stale channel whether or not its teardown throws) and resumes consuming
with both flags re-affirmed exactly when the was-active flag was set; but
createPublisher registers no reconnect subscriber at all, so a reconnect
leaves the manager's subscriber set exactly as it was and never re-runs the
publisher's setup. -/
theorem consumer_registers_publisher_does_not :
    (∀ cid : Nat, createConsumerReconnectRegs cid = [SetOp.add cid]) ∧
    (∀ (cid : Nat) (es : SetEntries),
      liveList (applyOps es (createConsumerReconnectRegs cid)) = liveList (setAdd es cid)) ∧
    createPublisherReconnectRegs = [] ∧
    (∀ es : SetEntries, applyOps es createPublisherReconnectRegs = es) ∧
    (∀ (s : ConsumerState) (closeThrows : Bool) (tag : Nat),
      consumerHandleReconnect s closeThrows (some ()) tag =
        if s.wasActive then startConsuming { s with channel := true } tag
        else { s with channel := true }) ∧
    (∀ (s : ConsumerState) (closeThrows : Bool) (tag : Nat), s.wasActive = true →
      (consumerHandleReconnect s closeThrows (some ()) tag).isActive = true ∧
      (consumerHandleReconnect s closeThrows (some ()) tag).wasActive = true ∧
      (consumerHandleReconnect s closeThrows (some ()) tag).channel = true ∧
      (consumerHandleReconnect s closeThrows (some ()) tag).consumerTag = some tag) := by
  refine ⟨fun _ => rfl, fun cid es => rfl, rfl, fun _ => rfl, ?_, ?_⟩
  · intro s closeThrows tag
    simp [consumerHandleReconnect, consumerSetup]
  · intro s closeThrows tag hw
    rw [consumerHandleReconnect, consumerSetup]
    simp [hw, startConsuming]

/-- Witness for C1's theorem: a consumer that was active before the
disconnect (channel already invalidated by the channel-close handler)
resumes with a fresh channel, fresh tag 42, and both flags true, while the
publisher's registration list is empty. -/
theorem consumer_registers_publisher_does_not_witness :
    ((consumerHandleReconnect
        { channel := false, consumerTag := none, isActive := false, wasActive := true }
        true (some ()) 42).isActive = true ∧
      (consumerHandleReconnect
        { channel := false, consumerTag := none, isActive := false, wasActive := true }
        true (some ()) 42).wasActive = true ∧
      (consumerHandleReconnect
        { channel := false, consumerTag := none, isActive := false, wasActive := true }
        true (some ()) 42).channel = true ∧
      (consumerHandleReconnect
        { channel := false, consumerTag := none, isActive := false, wasActive := true }
        true (some ()) 42).consumerTag = some 42) ∧
    createPublisherReconnectRegs = [] :=
  ⟨(consumer_registers_publisher_does_not.2.2.2.2.2
      { channel := false, consumerTag := none, isActive := false, wasActive := true }
      true 42 rfl),
    rfl⟩

/-- Claim C2, evaluated against the code: createBridge performs no
onReconnect registration on either the source or the target manager, so both
managers' subscriber sets are unchanged by bridge construction, and a bridge
callback identity that was never registered (and that no other subscriber
registers) is never invoked by any reconnect notification: the bridge's
start() is never re-invoked on reconnect. -/
theorem bridge_registers_no_reconnect_subscriber :
    createBridgeSourceReconnectRegs = [] ∧
    createBridgeTargetReconnectRegs = [] ∧
    (∀ es : SetEntries, applyOps es createBridgeSourceReconnectRegs = es) ∧
    (∀ es : SetEntries, applyOps es createBridgeTargetReconnectRegs = es) ∧
    (∀ (bid : Nat) (acts : Nat → List SetOp) (es : SetEntries) (fuel i : Nat),
      bid ∉ liveList es → (∀ u, SetOp.add bid ∉ acts u) →
      bid ∉ (notifyFrom acts fuel i es).1) := by
  refine ⟨rfl, rfl, fun _ => rfl, fun _ => rfl, ?_⟩
  intro bid acts es fuel i hes hacts
  exact notifyFrom_not_mem acts bid hacts fuel i es hes

/-- Witness for C2's theorem: a source manager with one unrelated subscriber
(id 5) that performs no registrations; the bridge callback id 9 is absent
from the notification log of a reconnect. -/
theorem bridge_registers_no_reconnect_subscriber_witness :
    (applyOps [some 5] createBridgeSourceReconnectRegs = [some 5]) ∧
    (9 ∉ liveList [some 5] ∧ (∀ u : Nat, SetOp.add 9 ∉ ([] : List SetOp)) ∧
      9 ∉ (notifyFrom (fun _ => []) 1 0 [some 5]).1) :=
  ⟨rfl,
    by decide,
    (fun u => by simp),
    bridge_registers_no_reconnect_subscriber.2.2.2.2 9 (fun _ => []) [some 5] 1 0
      (by decide) (fun u => by simp)⟩

/-! ## Message handling and nack policy (src/consumer.ts, src/bridge.ts) -/

/-- A channel operation issued while handling one message. -/
inductive ChanOp where
  | ack
  | nack (multiple : Bool) (requeue : Bool)
deriving DecidableEq, Repr

/-- Outcome of handling one message: the channel operations issued, in order,
and whether the handler returned normally (no exception escaped). -/
structure HandleOutcome where
  ops : List ChanOp
  normal : Bool
deriving DecidableEq, Repr

/-- The consumer's handleMessage (src/consumer.ts lines 143-168) on a
non-null message with a live channel: `handlerResult` is the outcome of the
caller-supplied onMessage handler; on failure the message is nacked with
requeue = not redelivered, and a throwing nack (`nackThrows`) is caught and
swallowed. -/
def consumerHandleMessage (redelivered : Bool) (handlerResult : Except String Unit)
    (nackThrows : Bool) : HandleOutcome :=
  match handlerResult with
  | .ok _ => { ops := [ChanOp.ack], normal := true }
  | .error _ =>
    let requeue := !redelivered
    if nackThrows then { ops := [], normal := true }
    else { ops := [ChanOp.nack false requeue], normal := true }

/-- Does `hay` start with `needle`? -/
def listStartsWith : List Char → List Char → Bool
  | _, [] => true
  | [], _ :: _ => false
  | c :: cs, d :: ds => c == d && listStartsWith cs ds

/-- JavaScript `hay.includes(needle)` on character lists. -/
def listIncludes : List Char → List Char → Bool
  | [], needle => listStartsWith [] needle
  | c :: rest, needle => listStartsWith (c :: rest) needle || listIncludes rest needle

/-- The channel-closed classification of src/bridge.ts line 169:
`message.includes("Channel closed") || message.includes("channel closed")`. -/
def channelClosedText (m : String) : Bool :=
  listIncludes m.toList "Channel closed".toList || listIncludes m.toList "channel closed".toList

/-- The bridge's handleMessage (src/bridge.ts lines 146-193) on a non-null
message with both channels live: `forwardResult` is the outcome of the
confirmed forward to the target.  A failure whose text says the channel is
closed suppresses any ack/nack; any other failure nacks with requeue = not
redelivered, a throwing nack being swallowed. -/
def bridgeHandleMessage (redelivered : Bool) (forwardResult : Except String Unit)
    (nackThrows : Bool) : HandleOutcome :=
  match forwardResult with
  | .ok _ => { ops := [ChanOp.ack], normal := true }
  | .error m =>
    if channelClosedText m then { ops := [], normal := true }
    else
      let requeue := !redelivered
      if nackThrows then { ops := [], normal := true }
      else { ops := [ChanOp.nack false requeue], normal := true }

/-- Claim C6: a message whose handler fails is nacked with requeue = true
when not yet redelivered and requeue = false when already redelivered (so it
is requeued at most once); an exception from the nack call itself is
swallowed (the handler still returns normally); and the bridge applies the
same requeue-unless-redelivered rule to forwarding failures that are not
channel-closed failures. -/
theorem nack_requeue_policy (redelivered nackThrows : Bool) (m : String)
    (hm : channelClosedText m = false) :
    consumerHandleMessage redelivered (.error m) nackThrows =
      { ops := if nackThrows then [] else [ChanOp.nack false (!redelivered)],
        normal := true } ∧
    bridgeHandleMessage redelivered (.error m) nackThrows =
      { ops := if nackThrows then [] else [ChanOp.nack false (!redelivered)],
        normal := true } ∧
    (consumerHandleMessage redelivered (.error m) nackThrows).normal = true ∧
    (consumerHandleMessage false (.error m) false).ops = [ChanOp.nack false true] ∧
    (consumerHandleMessage true (.error m) false).ops = [ChanOp.nack false false] := by
  refine ⟨?_, ?_, ?_, rfl, rfl⟩
  · rw [consumerHandleMessage]
    split_ifs <;> rfl
  · rw [bridgeHandleMessage, if_neg (by simp [hm])]
    split_ifs <;> rfl
  · rw [consumerHandleMessage]
    split_ifs <;> rfl

/-- Witness for C6 at the failure message "boom" (not a channel-closed text),
with redelivered = false and a non-throwing nack. -/
theorem nack_requeue_policy_witness :
    channelClosedText "boom" = false ∧
    (consumerHandleMessage false (.error "boom") false =
        { ops := [ChanOp.nack false true], normal := true } ∧
      bridgeHandleMessage false (.error "boom") false =
        { ops := [ChanOp.nack false true], normal := true } ∧
      (consumerHandleMessage false (.error "boom") false).normal = true ∧
      (consumerHandleMessage false (.error "boom") false).ops = [ChanOp.nack false true] ∧
      (consumerHandleMessage true (.error "boom") false).ops = [ChanOp.nack false false]) :=
  ⟨by decide, nack_requeue_policy false false "boom" (by decide)⟩

/-! ## Error-log rate limiter (src/bridge.ts lines 33-94) -/

def ERROR_LOG_LIMIT : Nat := 10

def ERROR_LOG_WINDOW_MS : Int := 5000

/-- The two rate-limiter fields of BridgeInternalState. -/
structure RateLimitState where
  errorLogCount : Nat
  lastErrorLogReset : Int
deriving DecidableEq, Repr

/-- Result of one shouldLogError call: whether to log this error, the
suppressed count reported by the rollover summary line (if emitted), and the
updated state. -/
structure ShouldLogResult where
  shouldLog : Bool
  summary : Option Nat
  state : RateLimitState
deriving DecidableEq, Repr

/-- shouldLogError (src/bridge.ts lines 83-94): on window rollover, warn with
the suppressed count if over the limit, then reset the counter and window;
always count the current error and log it iff the counter is within the
limit. -/
def shouldLogError (now : Int) (s : RateLimitState) : ShouldLogResult :=
  if now - s.lastErrorLogReset > ERROR_LOG_WINDOW_MS then
    let summary :=
      if s.errorLogCount > ERROR_LOG_LIMIT then some (s.errorLogCount - ERROR_LOG_LIMIT)
      else none
    let count := 0 + 1
    { shouldLog := decide (count ≤ ERROR_LOG_LIMIT), summary := summary,
      state := { errorLogCount := count, lastErrorLogReset := now } }
  else
    let count := s.errorLogCount + 1
    { shouldLog := decide (count ≤ ERROR_LOG_LIMIT), summary := none,
      state := { errorLogCount := count, lastErrorLogReset := s.lastErrorLogReset } }

/-- A burst of errors at the given times: returns how many were logged and
the final state. -/
def runErrors (s : RateLimitState) : List Int → Nat × RateLimitState
  | [] => (0, s)
  | t :: rest =>
    let r := shouldLogError t s
    let rec2 := runErrors r.state rest
    ((if r.shouldLog then 1 else 0) + rec2.1, rec2.2)

theorem runErrors_in_window (t0 : Int) :
    ∀ (times : List Int) (c : Nat), (∀ t ∈ times, t - t0 ≤ ERROR_LOG_WINDOW_MS) →
      runErrors { errorLogCount := c, lastErrorLogReset := t0 } times =
        (min (c + times.length) ERROR_LOG_LIMIT - min c ERROR_LOG_LIMIT,
          { errorLogCount := c + times.length, lastErrorLogReset := t0 }) := by
  intro times
  induction times with
  | nil =>
    intro c _
    simp [runErrors]
  | cons t rest ih =>
    intro c hin
    have ht : ¬ (t - t0 > ERROR_LOG_WINDOW_MS) := by
      have := hin t (List.mem_cons_self _ _)
      omega
    rw [runErrors]
    simp only [shouldLogError, if_neg ht]
    rw [ih (c + 1) (fun u hu => hin u (List.mem_cons_of_mem _ hu))]
    simp only [List.length_cons, Prod.mk.injEq]
    constructor
    · by_cases hc : c + 1 ≤ ERROR_LOG_LIMIT
      · rw [if_pos (by simpa using hc)]
        have : ERROR_LOG_LIMIT = 10 := rfl
        omega
      · rw [if_neg (by simpa using hc)]
        have : ERROR_LOG_LIMIT = 10 := rfl
        omega
    · have harith : c + 1 + rest.length = c + (rest.length + 1) := by omega
      rw [harith]

/-- Claim C8: a burst of limit + k errors (k at least 1) inside one window of
a fresh rate limiter logs exactly ERROR_LOG_LIMIT of them, and the first
error after the window rolls over emits a single summary reporting exactly k
suppressed errors, after which the counter holds only that one new error. -/
theorem rate_limiter_burst (t0 tRoll : Int) (times : List Int) (k : Nat)
    (hlen : times.length = ERROR_LOG_LIMIT + k) (hk : 0 < k)
    (hin : ∀ t ∈ times, t - t0 ≤ ERROR_LOG_WINDOW_MS)
    (hroll : tRoll - t0 > ERROR_LOG_WINDOW_MS) :
    (runErrors { errorLogCount := 0, lastErrorLogReset := t0 } times).1 =
      ERROR_LOG_LIMIT ∧
    (shouldLogError tRoll
        (runErrors { errorLogCount := 0, lastErrorLogReset := t0 } times).2).summary =
      some k ∧
    (shouldLogError tRoll
        (runErrors { errorLogCount := 0, lastErrorLogReset := t0 } times).2).state =
      { errorLogCount := 0 + 1, lastErrorLogReset := tRoll } := by
  rw [runErrors_in_window t0 times 0 hin]
  have hL : ERROR_LOG_LIMIT = 10 := rfl
  refine ⟨by simp only [hlen]; omega, ?_, ?_⟩
  · simp only [shouldLogError, if_pos hroll, hlen]
    rw [if_pos (by omega)]
    simp only [Option.some.injEq]
    omega
  · simp only [shouldLogError, if_pos hroll]

/-- Witness for C8: thirteen errors (limit 10 plus k = 3) at time 100 in a
window opened at 0, then a rollover error at time 6000: exactly 10 logged,
summary reports 3 suppressed, counter restarts at 1. -/
theorem rate_limiter_burst_witness :
    ((List.replicate 13 (100 : Int)).length = ERROR_LOG_LIMIT + 3 ∧ 0 < 3 ∧
      (∀ t ∈ List.replicate 13 (100 : Int), t - 0 ≤ ERROR_LOG_WINDOW_MS) ∧
      ((6000 : Int) - 0 > ERROR_LOG_WINDOW_MS)) ∧
    ((runErrors { errorLogCount := 0, lastErrorLogReset := 0 }
        (List.replicate 13 (100 : Int))).1 = ERROR_LOG_LIMIT ∧
      (shouldLogError 6000
          (runErrors { errorLogCount := 0, lastErrorLogReset := 0 }
            (List.replicate 13 (100 : Int))).2).summary = some 3 ∧
      (shouldLogError 6000
          (runErrors { errorLogCount := 0, lastErrorLogReset := 0 }
            (List.replicate 13 (100 : Int))).2).state =
        { errorLogCount := 0 + 1, lastErrorLogReset := 6000 }) :=
  ⟨⟨by decide, by decide, fun t ht => by simp at ht; subst ht; decide, by decide⟩,
    rate_limiter_burst 0 6000 (List.replicate 13 (100 : Int)) 3 (by decide) (by decide)
      (fun t ht => by simp at ht; subst ht; decide) (by decide)⟩

/-! ## Publisher publish (src/publisher.ts) -/

/-- PublisherState of src/publisher.ts lines 24-30 (timestamps omitted). -/
structure PublisherState where
  channel : Bool
  isReady : Bool
  messagesPublished : Nat
  messagesPublishFailed : Nat
deriving DecidableEq, Repr

/-- Outcome of one publish call: the value the returned promise settles to,
the updated state, and whether the broker-level `channel.publish` was
attempted at all. -/
structure PublishOutcome where
  result : Except String Unit
  state : PublisherState
  attemptedBroker : Bool
deriving Repr

/-- publish (src/publisher.ts lines 97-134): with no channel or not ready,
the failure counter is incremented and a rejected promise is returned at
once, without touching the broker; otherwise the broker publish is issued and
the confirm callback (`confirm`, which also stands for a synchronous throw
from the publish call) settles the promise and bumps the matching counter. -/
def publish (s : PublisherState) (confirm : Except String Unit) : PublishOutcome :=
  if s.channel = false ∨ s.isReady = false then
    { result := .error "Publisher not ready",
      state := { s with messagesPublishFailed := s.messagesPublishFailed + 1 },
      attemptedBroker := false }
  else
    match confirm with
    | .ok _ =>
      { result := .ok (),
        state := { s with messagesPublished := s.messagesPublished + 1 },
        attemptedBroker := true }
    | .error m =>
      { result := .error m,
        state := { s with messagesPublishFailed := s.messagesPublishFailed + 1 },
        attemptedBroker := true }

/-- Claim C9: every publish issued while no channel is available (absent
channel or not-ready flag) rejects immediately with the "Publisher not ready"
failure, increments only the publish-failure counter, and never reaches the
broker-level publish call — no retry is performed by this layer. -/
theorem publish_not_ready (s : PublisherState) (confirm : Except String Unit)
    (h : s.channel = false ∨ s.isReady = false) :
    publish s confirm =
      { result := .error "Publisher not ready",
        state := { s with messagesPublishFailed := s.messagesPublishFailed + 1 },
        attemptedBroker := false } := by
  rw [publish.eq_def, if_pos h]

/-- Witness for C9: a publisher whose channel was closed (channel absent, not
ready, 2 published, 5 failed so far) rejects a publish and only bumps the
failure counter to 6. -/
theorem publish_not_ready_witness :
    (PublisherState.channel
        { channel := false, isReady := false, messagesPublished := 2,
          messagesPublishFailed := 5 } = false ∨
      PublisherState.isReady
        { channel := false, isReady := false, messagesPublished := 2,
          messagesPublishFailed := 5 } = false) ∧
    publish
        { channel := false, isReady := false, messagesPublished := 2,
          messagesPublishFailed := 5 } (.ok ()) =
      { result := .error "Publisher not ready",
        state := { channel := false, isReady := false,
                   messagesPublished := 2, messagesPublishFailed := 6 },
        attemptedBroker := false } :=
  ⟨Or.inl rfl,
    publish_not_ready
      { channel := false, isReady := false, messagesPublished := 2,
        messagesPublishFailed := 5 } (.ok ()) (Or.inl rfl)⟩

/-! ## Bridge surface (src/bridge.ts lines 313-320, src/types.ts 254-267) -/

/-- The property names of the object returned by createBridge
(the return object literal at src/bridge.ts lines 313-319). -/
def bridgeReturnedMethods : List String :=
  ["start", "stop", "isRunning", "getMetrics", "getState"]

/-- The method names declared by the Bridge interface
(src/types.ts lines 254-267). -/
def bridgeInterfaceMethods : List String :=
  ["start", "stop", "close", "isRunning", "getMetrics", "getState"]

/-- Property access on the returned bridge object: false models a property
access that yields `undefined`. -/
def bridgeHasMethod (name : String) : Bool := bridgeReturnedMethods.contains name

/-- Claim C10: the object createBridge returns carries exactly the five
operations start, stop, isRunning, getMetrics and getState — it is the
declared Bridge interface minus close — so accessing close on any bridge
instance yields undefined even though the Bridge interface declares it. -/
theorem bridge_has_no_close :
    bridgeReturnedMethods = bridgeInterfaceMethods.erase "close" ∧
    bridgeHasMethod "close" = false ∧
    "close" ∈ bridgeInterfaceMethods ∧
    bridgeHasMethod "start" = true ∧ bridgeHasMethod "stop" = true ∧
    bridgeHasMethod "isRunning" = true ∧ bridgeHasMethod "getMetrics" = true ∧
    bridgeHasMethod "getState" = true ∧
    bridgeReturnedMethods.length = 5 := by
  refine ⟨by decide, by decide, by decide, by decide, by decide, by decide, by decide,
    by decide, by decide⟩

end Burrow
